import Mathlib

/-!
Shallow embedding of the edge gateway in `src/worker/index-fixed.ts`
(the `worker.fetch` handler) and proofs about its request dispatch,
CSP-header rewrite, and error-handling behaviour.

The handler's collaborators (`env.ASSETS.fetch` and the sub-application
`createApp(env)` / `app.fetch`) are modelled as function parameters; the
handler's observable effects (downstream calls, `console.error` log
emissions) are recorded in an effect log alongside the outcome.
-/

/-- Model of JavaScript `String.prototype.startsWith` on code points:
`charsStartWith pat s` is true when `pat` is an initial segment of `s`. -/
def charsStartWith : List Char → List Char → Bool
  | [], _ => true
  | _ :: _, [] => false
  | c :: cs, d :: ds => c == d && charsStartWith cs ds

/-- `jsStartsWith s pat = true` iff the string `s` starts with `pat`
(exact, case-sensitive), as JavaScript `s.startsWith(pat)` computes. -/
def jsStartsWith (s pat : String) : Bool :=
  charsStartWith pat.data s.data

/-- Model of JavaScript `String.prototype.includes`: `charsContain pat s`
is true when `pat` occurs as a contiguous segment of `s` (case-sensitive). -/
def charsContain : List Char → List Char → Bool
  | pat, [] => pat.isEmpty
  | pat, c :: t => charsStartWith pat (c :: t) || charsContain pat t

/-- `jsIncludes s pat = true` iff `pat` occurs as a (case-sensitive)
substring of `s`, as JavaScript `s.includes(pat)` computes. -/
def jsIncludes (s pat : String) : Bool :=
  charsContain pat.data s.data

/-- ASCII-lowercase a header name, modelling the case-insensitivity of
header NAMES in the Fetch `Headers` class. -/
def lowerName (s : String) : String :=
  String.mk (s.data.map Char.toLower)

/-- Model of the Fetch `Headers` map: a list of name/value pairs; name
lookup is case-insensitive (values are returned verbatim, never
normalised in case). -/
structure Headers where
  entries : List (String × String)
deriving DecidableEq, Repr

/-- `Headers.get`: first value whose name matches case-insensitively,
`none` when the header is absent (JS `headers.get(name)` returning
`null`). -/
def Headers.get (h : Headers) (name : String) : Option String :=
  (h.entries.find? (fun p => lowerName p.1 == lowerName name)).map (fun p => p.2)

/-- `Headers.set`: remove every entry matching the name
case-insensitively and record the new value, as Fetch `headers.set`
does (observable through `get` exactly as the in-place replacement). -/
def Headers.set (h : Headers) (name value : String) : Headers :=
  ⟨h.entries.filter (fun p => !(lowerName p.1 == lowerName name)) ++ [(name, value)]⟩

/-- A Fetch `Response`: status, status text, headers, and body (the body
stream is opaque to the gateway; it is modelled as a value that is only
ever passed along). -/
structure Response where
  status : Nat
  statusText : String
  headers : Headers
  body : String
deriving DecidableEq, Repr

/-- An inbound request, with the URL already parsed (the handler's
`new URL(request.url)` / `const { pathname } = url`): the gateway reads
only `pathname` and otherwise passes the request through verbatim. -/
structure Request where
  method : String
  pathname : String
deriving DecidableEq, Repr

/-- A downstream collaborator call made by the gateway, with the request
it forwarded: either `env.ASSETS.fetch(request)` or the sub-application
dispatch `app.fetch(request, env, ctx)`. -/
inductive Call where
  | assets (req : Request)
  | api (req : Request)
deriving DecidableEq, Repr

/-- Behaviour of the sub-application delegation `createApp(env)` followed
by `app.fetch(request, env, ctx)` for a given request:
* `resolve r` — the returned promise resolves to the response `r`;
* `rejectAsync e` — a promise is returned but later rejects with `e`;
* `throwSync e` — `createApp` or the `app.fetch` call itself throws `e`
  synchronously, before any promise is produced. -/
inductive ApiOutcome where
  | resolve (r : Response)
  | rejectAsync (e : String)
  | throwSync (e : String)
deriving DecidableEq, Repr

/-- How the handler's own promise settles: with a `Response`, or with a
propagated failure (the caller sees a rejection, not a response). -/
inductive Outcome where
  | ok (r : Response)
  | failure (e : String)
deriving DecidableEq, Repr

/-- Result of one invocation of the handler: how its promise settles,
the downstream calls it made, and the `console.error` emissions
(label/error pairs). -/
structure GatewayResult where
  outcome : Outcome
  calls : List Call
  logs : List (String × String)
deriving DecidableEq, Repr

/-- The fixed Content-Security-Policy directive string, concatenated
from the same literals as the source. -/
def cspValue : String :=
  "default-src 'self'; " ++
  "script-src 'self' 'unsafe-eval' 'unsafe-inline' data: blob:; " ++
  "style-src 'self' 'unsafe-inline' data:; " ++
  "worker-src 'self' blob:; " ++
  "child-src 'self' blob:; " ++
  "font-src 'self' data:; " ++
  "img-src 'self' data: blob:; " ++
  "connect-src 'self' ws: wss: https:;"

/-- The handler's HTML test on the asset response:
`response.headers.get('content-type')?.includes('text/html')` — absent
header short-circuits to the falsy branch. -/
def isHtmlContentType (r : Response) : Bool :=
  match r.headers.get "content-type" with
  | some ct => jsIncludes ct "text/html"
  | none => false

/-- The handler's rewrite of an HTML asset response:
`new Response(response.body, { status, statusText, headers })` followed
by `newResponse.headers.set('Content-Security-Policy', ...)`. -/
def rewriteCSP (r : Response) : Response :=
  { status := r.status
    statusText := r.statusText
    headers := r.headers.set "Content-Security-Policy" cspValue
    body := r.body }

/-- The response built by `new Response('API Error', { status: 500 })`:
status 500, the constructor's default (empty) status text, and — because
the Fetch `Response` constructor extracts a string body with MIME type
`text/plain;charset=UTF-8` and no `content-type` is present in the
(absent) init headers — a header map holding exactly that one implicit
`content-type` header. -/
def apiErrorResponse : Response :=
  { status := 500, statusText := ""
    headers := ⟨[("content-type", "text/plain;charset=UTF-8")]⟩
    body := "API Error" }

/-- The `worker.fetch` handler of `src/worker/index-fixed.ts`.
`assetsFetch` models `env.ASSETS.fetch`; `apiDispatch` models the
sub-application delegation (`createApp(env)` plus
`app.fetch(request, env, ctx)`), which may resolve, reject, or throw.
Note that the source returns the sub-application promise from inside
`try { ... } catch` WITHOUT `await`, so the `catch` block runs only for
a synchronous throw; a later rejection of the returned promise settles
the handler's own promise with that rejection. -/
def handle (req : Request) (assetsFetch : Request → Response)
    (apiDispatch : Request → ApiOutcome) : GatewayResult :=
  if !(jsStartsWith req.pathname "/api/") then
    let response := assetsFetch req
    if isHtmlContentType response then
      { outcome := Outcome.ok (rewriteCSP response)
        calls := [Call.assets req], logs := [] }
    else
      { outcome := Outcome.ok response, calls := [Call.assets req], logs := [] }
  else
    match apiDispatch req with
    | ApiOutcome.resolve r =>
      { outcome := Outcome.ok r, calls := [Call.api req], logs := [] }
    | ApiOutcome.rejectAsync e =>
      { outcome := Outcome.failure e, calls := [Call.api req], logs := [] }
    | ApiOutcome.throwSync e =>
      { outcome := Outcome.ok apiErrorResponse
        calls := [Call.api req], logs := [("API request failed:", e)] }

/- Concrete sample data used by counterexamples and witnesses. -/

/-- A sample HTML asset response (lowercase `text/html` media type). -/
def htmlAsset : Response :=
  { status := 200, statusText := "OK"
    headers := ⟨[("content-type", "text/html; charset=utf-8")]⟩
    body := "<html>hello</html>" }

/-- An asset response whose content type is `TEXT/HTML` in upper case. -/
def upperHtmlAsset : Response :=
  { status := 200, statusText := "OK"
    headers := ⟨[("content-type", "TEXT/HTML")]⟩
    body := "<html>upper</html>" }

/-- A sample non-HTML asset response (a JavaScript file). -/
def jsAsset : Response :=
  { status := 200, statusText := "OK"
    headers := ⟨[("content-type", "application/javascript")]⟩
    body := "console.log(1)" }

/-- A sample successful sub-application response. -/
def apiOkResponse : Response :=
  { status := 200, statusText := "OK", headers := ⟨[]⟩, body := "ok" }

/-- A sub-application collaborator that always resolves. -/
def apiAlwaysOk : Request → ApiOutcome :=
  fun _ => ApiOutcome.resolve apiOkResponse

/-- An asset collaborator that always serves `jsAsset`. -/
def assetsAlwaysJs : Request → Response :=
  fun _ => jsAsset

/-- Request for `/index.html`. -/
def reqIndex : Request := { method := "GET", pathname := "/index.html" }

/-- Request for `/api/agent`. -/
def reqApiAgent : Request := { method := "POST", pathname := "/api/agent" }

/-- Request for `/api/users`. -/
def reqApiUsers : Request := { method := "GET", pathname := "/api/users" }

/-- Request for `/api/data`. -/
def reqApiData : Request := { method := "GET", pathname := "/api/data" }

/-- Request whose path is exactly `/api` (no trailing slash). -/
def reqApiBare : Request := { method := "GET", pathname := "/api" }

/-- Request whose path extends `/api` without the slash. -/
def reqApiX : Request := { method := "GET", pathname := "/apiX" }

/- Lemmas about `Headers.get` after `Headers.set`. -/

/-- `find?` over a list ending in the first matching element. -/
theorem find_append_singleton {α : Type} (pred : α → Bool) (l : List α) (x : α)
    (h : ∀ a ∈ l, pred a = false) (hx : pred x = true) :
    (l ++ [x]).find? pred = some x := by
  induction l with
  | nil => simp [List.find?, hx]
  | cons a t ih =>
    have ha := h a (List.mem_cons_self a t)
    rw [List.cons_append, List.find?_cons]
    rw [ha]
    exact ih (fun b hb => h b (List.mem_cons_of_mem a hb))

/-- Appending a non-matching element does not change `find?`. -/
theorem find_append_none {α : Type} (pred : α → Bool) (l : List α) (x : α)
    (hx : pred x = false) :
    (l ++ [x]).find? pred = l.find? pred := by
  induction l with
  | nil => simp [List.find?, hx]
  | cons a t ih =>
    rw [List.cons_append, List.find?_cons, List.find?_cons]
    cases hp : pred a
    · exact ih
    · rfl

/-- Filtering with a predicate that keeps every `find?`-match does not
change `find?`. -/
theorem find_filter_of_imp {α : Type} (pred q : α → Bool)
    (h : ∀ a, pred a = true → q a = true) (l : List α) :
    (l.filter q).find? pred = l.find? pred := by
  induction l with
  | nil => rfl
  | cons a t ih =>
    by_cases hq : q a = true
    · rw [List.filter_cons_of_pos hq, List.find?_cons, List.find?_cons]
      cases hp : pred a
      · exact ih
      · rfl
    · have hpa : pred a = false := by
        cases hp : pred a
        · rfl
        · exact absurd (h a hp) hq
      have hqf : q a = false := by
        cases hqv : q a
        · rfl
        · exact absurd hqv hq
      rw [List.filter_cons_of_neg (by simp [hqf]), List.find?_cons, hpa, ih]

/-- `get` after `set` of the same name returns the new value. -/
theorem Headers.get_set_self (h : Headers) (name v : String) :
    (h.set name v).get name = some v := by
  unfold Headers.get Headers.set
  rw [find_append_singleton]
  · rfl
  · intro a haf
    have hmem := (List.mem_filter.mp haf).2
    cases hb : (lowerName a.1 == lowerName name)
    · rfl
    · rw [hb] at hmem
      exact absurd hmem (by simp)
  · exact beq_iff_eq.mpr rfl

/-- `get` after `set` of a (case-insensitively) different name is
unchanged. -/
theorem Headers.get_set_other (h : Headers) (name v n : String)
    (hne : lowerName n ≠ lowerName name) :
    (h.set name v).get n = h.get n := by
  unfold Headers.get Headers.set
  rw [find_append_none, find_filter_of_imp]
  · intro a hpa
    have haeq : lowerName a.1 = lowerName n := beq_iff_eq.mp hpa
    have : (lowerName a.1 == lowerName name) = false :=
      beq_eq_false_iff_ne.mpr (fun hcon => hne (haeq ▸ hcon))
    simp [this]
  · exact beq_eq_false_iff_ne.mpr (fun hcon => hne hcon.symm)

/- Claim theorems. -/

/-- Claim C1 (code bug evidence): the source returns the sub-application
promise from inside `try`/`catch` without `await`, so when the dispatch
REJECTS (rather than throwing synchronously) the failure escapes the
gateway: at path `/api/agent` with a rejecting dispatch, the handler's
promise settles with the propagated failure, not with a 500 "API Error"
response, and no diagnostic is logged. -/
theorem apiRejectionEscapesGateway :
    handle reqApiAgent assetsAlwaysJs (fun _ => ApiOutcome.rejectAsync "boom") =
      { outcome := Outcome.failure "boom", calls := [Call.api reqApiAgent], logs := [] } := by
  decide

/-- Claim C2, counterexample: an asset response whose content type is
`TEXT/HTML` (upper case) does NOT receive the Content-Security-Policy
header — it is passed through unchanged — because the source's
`includes('text/html')` test is case-sensitive on the header value. -/
theorem upperHtmlNotRewritten :
    (handle reqIndex (fun _ => upperHtmlAsset) apiAlwaysOk).outcome =
      Outcome.ok upperHtmlAsset ∧
    upperHtmlAsset.headers.get "content-type" = some "TEXT/HTML" ∧
    upperHtmlAsset.headers.get "Content-Security-Policy" = none := by
  refine ⟨by decide, by decide, rfl⟩

/-- Claim C2 as amended: for every non-API request, the decision to
rewrite the security-policy header is the CASE-SENSITIVE substring test
`isHtmlContentType` (JavaScript `includes('text/html')` on the
content-type value; an absent header never matches). -/
theorem cspRewriteDecidedByExactSubstring (req : Request) (r : Response)
    (p : Request → ApiOutcome)
    (hroute : jsStartsWith req.pathname "/api/" = false) :
    (handle req (fun _ => r) p).outcome =
      Outcome.ok (if isHtmlContentType r then rewriteCSP r else r) := by
  by_cases hh : isHtmlContentType r
  · simp [handle, hroute, hh]
  · simp [handle, hroute, hh]

/-- Witness for the amended C2 theorem at a concrete HTML request. -/
theorem cspRewriteDecidedWitness :
    (handle reqIndex (fun _ => htmlAsset) apiAlwaysOk).outcome =
      Outcome.ok (if isHtmlContentType htmlAsset then rewriteCSP htmlAsset else htmlAsset) :=
  cspRewriteDecidedByExactSubstring reqIndex htmlAsset apiAlwaysOk (by decide)

/-- Claim C3: a non-API request whose asset response's content-type
contains `text/html` is answered by the rewritten response: same status,
status text and body, Content-Security-Policy set to the fixed directive
string, and every other header preserved. -/
theorem htmlAssetResponseRewritten (req : Request) (r : Response)
    (p : Request → ApiOutcome)
    (hroute : jsStartsWith req.pathname "/api/" = false)
    (hhtml : isHtmlContentType r = true) :
    (handle req (fun _ => r) p).outcome = Outcome.ok (rewriteCSP r) ∧
    (rewriteCSP r).status = r.status ∧
    (rewriteCSP r).statusText = r.statusText ∧
    (rewriteCSP r).body = r.body ∧
    (rewriteCSP r).headers.get "Content-Security-Policy" = some cspValue ∧
    ∀ n : String, lowerName n ≠ lowerName "Content-Security-Policy" →
      (rewriteCSP r).headers.get n = r.headers.get n := by
  refine ⟨by simp [handle, hroute, hhtml], rfl, rfl, rfl,
    Headers.get_set_self r.headers "Content-Security-Policy" cspValue,
    fun n hn => Headers.get_set_other r.headers "Content-Security-Policy" cspValue n hn⟩

/-- Witness for C3 at the concrete `/index.html` request. -/
theorem htmlAssetResponseRewrittenWitness :
    (handle reqIndex (fun _ => htmlAsset) apiAlwaysOk).outcome =
      Outcome.ok (rewriteCSP htmlAsset) :=
  (htmlAssetResponseRewritten reqIndex htmlAsset apiAlwaysOk (by decide) (by decide)).1

/-- Claim C4: dispatch is decided solely by the case-sensitive test
`pathname.startsWith('/api/')`: API paths call exactly the
sub-application dispatch, all other paths call exactly the asset fetch. -/
theorem routeSelectedByApiPath (req : Request) (a : Request → Response)
    (p : Request → ApiOutcome) :
    (handle req a p).calls =
      (if jsStartsWith req.pathname "/api/" then [Call.api req] else [Call.assets req]) := by
  cases h : jsStartsWith req.pathname "/api/" with
  | false => by_cases hh : isHtmlContentType (a req) <;> simp [handle, h, hh]
  | true => cases hp : p req <;> simp [handle, h, hp]

/-- Claim C5: a non-API request whose asset response is not HTML is
answered by the collaborator's response itself — the whole gateway
result is the unmodified response, one asset call, no logs. -/
theorem nonHtmlAssetPassedThrough (req : Request) (r : Response)
    (p : Request → ApiOutcome)
    (hroute : jsStartsWith req.pathname "/api/" = false)
    (hnot : isHtmlContentType r = false) :
    handle req (fun _ => r) p =
      { outcome := Outcome.ok r, calls := [Call.assets req], logs := [] } := by
  simp [handle, hroute, hnot]

/-- Witness for C5 at a concrete JavaScript asset request. -/
theorem nonHtmlAssetPassedThroughWitness :
    handle reqIndex (fun _ => jsAsset) apiAlwaysOk =
      { outcome := Outcome.ok jsAsset, calls := [Call.assets reqIndex], logs := [] } :=
  nonHtmlAssetPassedThrough reqIndex jsAsset apiAlwaysOk (by decide) (by decide)

/-- Claim C6, counterexample: the substituted error response's header
map is NOT empty — the Fetch `Response` constructor adds
`content-type: text/plain;charset=UTF-8` for the string body
`'API Error'`, so at a concrete converted failure the response carries
exactly that one header. -/
theorem apiErrorHeadersNotEmpty :
    (handle reqApiUsers assetsAlwaysJs (fun _ => ApiOutcome.throwSync "bang")).outcome =
      Outcome.ok apiErrorResponse ∧
    apiErrorResponse.headers.entries = [("content-type", "text/plain;charset=UTF-8")] := by
  refine ⟨by decide, rfl⟩

/-- Claim C6 as amended: when the gateway converts an API delegation
failure (a synchronous throw) into an error response, that response has
status 500, empty status text, body exactly "API Error", and no headers
beyond the single implicit `content-type: text/plain;charset=UTF-8` the
Response constructor adds for a string body. -/
theorem syncThrowYieldsApiError (req : Request) (a : Request → Response)
    (p : Request → ApiOutcome) (e : String)
    (hroute : jsStartsWith req.pathname "/api/" = true)
    (hthrow : p req = ApiOutcome.throwSync e) :
    (handle req a p).outcome = Outcome.ok apiErrorResponse ∧
    apiErrorResponse.status = 500 ∧
    apiErrorResponse.statusText = "" ∧
    apiErrorResponse.body = "API Error" ∧
    apiErrorResponse.headers.entries = [("content-type", "text/plain;charset=UTF-8")] := by
  refine ⟨?_, rfl, rfl, rfl, rfl⟩
  simp [handle, hroute, hthrow]

/-- Witness for C6 at a concrete throwing dispatch on `/api/users`. -/
theorem syncThrowYieldsApiErrorWitness :
    (handle reqApiUsers assetsAlwaysJs (fun _ => ApiOutcome.throwSync "bang")).outcome =
      Outcome.ok apiErrorResponse :=
  (syncThrowYieldsApiError reqApiUsers assetsAlwaysJs
    (fun _ => ApiOutcome.throwSync "bang") "bang" (by decide) rfl).1

/-- Claim C7 (code bug evidence): totality fails on the reachable
async-rejection path — with a rejecting sub-application dispatch at
`/api/users`, the handler's promise settles with the propagated failure
rather than with any Response. -/
theorem apiRejectionBreaksTotality :
    handle reqApiUsers assetsAlwaysJs (fun _ => ApiOutcome.rejectAsync "crash") =
      { outcome := Outcome.failure "crash", calls := [Call.api reqApiUsers], logs := [] } := by
  decide

/-- Claim C8: the handler is deterministic and stateless — two
invocations with equal requests against collaborators with equal
behaviour produce equal gateway results (the handler closes over no
mutable state). -/
theorem handleDeterministicStateless (req req' : Request)
    (a a' : Request → Response) (p p' : Request → ApiOutcome)
    (hreq : req = req') (ha : ∀ x, a x = a' x) (hp : ∀ x, p x = p' x) :
    handle req a p = handle req' a' p' := by
  subst hreq
  rw [funext ha, funext hp]

/-- Witness for C8 at concrete equal arguments. -/
theorem handleDeterministicWitness :
    handle reqIndex assetsAlwaysJs apiAlwaysOk =
      handle reqIndex assetsAlwaysJs apiAlwaysOk :=
  handleDeterministicStateless reqIndex reqIndex assetsAlwaysJs assetsAlwaysJs
    apiAlwaysOk apiAlwaysOk rfl (fun _ => rfl) (fun _ => rfl)

/-- Claim C9 (code bug evidence): on an API delegation failure by async
rejection, the code emits NO diagnostic log at all — the `catch` holding
the `console.error` never runs (same missing-`await` slip as the escape
of the rejection itself) — even though exactly one downstream dispatch
was made and the delegation failed. -/
theorem apiRejectionEmitsNoDiagnostic :
    (handle reqApiData assetsAlwaysJs (fun _ => ApiOutcome.rejectAsync "oops")).logs = [] ∧
    (handle reqApiData assetsAlwaysJs (fun _ => ApiOutcome.rejectAsync "oops")).calls =
      [Call.api reqApiData] ∧
    (handle reqApiData assetsAlwaysJs (fun _ => ApiOutcome.rejectAsync "oops")).outcome =
      Outcome.failure "oops" := by
  refine ⟨rfl, by decide, by decide⟩

/-- The handler's actual effect discipline: every invocation makes
exactly one downstream call, and emits the single
`console.error('API request failed:', error)` pair precisely on the path
where a synchronous API throw is converted, and no log otherwise. -/
theorem singleDispatchAndLogDiscipline (req : Request) (a : Request → Response)
    (p : Request → ApiOutcome) :
    (handle req a p).calls.length = 1 ∧
    (handle req a p).logs =
      (match jsStartsWith req.pathname "/api/", p req with
       | true, ApiOutcome.throwSync e => [("API request failed:", e)]
       | _, _ => []) := by
  cases h : jsStartsWith req.pathname "/api/" with
  | false => by_cases hh : isHtmlContentType (a req) <;> simp [handle, h, hh]
  | true => cases hp : p req <;> simp [handle, h, hp]

/-- Claim C10: a path of exactly `/api`, or `/apiX` extending `/api`
without the slash, is routed to the asset collaborator; conversely, the
sub-application dispatch is only ever called when the path passes the
five-character `/api/` test. -/
theorem onlyApiSlashRoutesToApi :
    (∀ (a : Request → Response) (p : Request → ApiOutcome) (req : Request),
        req.pathname = "/api" → (handle req a p).calls = [Call.assets req]) ∧
    (∀ (a : Request → Response) (p : Request → ApiOutcome) (req : Request),
        req.pathname = "/apiX" → (handle req a p).calls = [Call.assets req]) ∧
    (∀ (a : Request → Response) (p : Request → ApiOutcome) (req : Request),
        (handle req a p).calls = [Call.api req] →
        jsStartsWith req.pathname "/api/" = true) := by
  refine ⟨?_, ?_, ?_⟩
  · intro a p req h
    have hf : jsStartsWith req.pathname "/api/" = false := by rw [h]; decide
    by_cases hh : isHtmlContentType (a req) <;> simp [handle, hf, hh]
  · intro a p req h
    have hf : jsStartsWith req.pathname "/api/" = false := by rw [h]; decide
    by_cases hh : isHtmlContentType (a req) <;> simp [handle, hf, hh]
  · intro a p req hcalls
    cases hv : jsStartsWith req.pathname "/api/" with
    | true => rfl
    | false =>
      exfalso
      by_cases hh : isHtmlContentType (a req) <;> simp [handle, hv, hh] at hcalls

/-- Witness for C10 at the concrete bare `/api` request. -/
theorem onlyApiSlashRoutesToApiWitness :
    (handle reqApiBare assetsAlwaysJs apiAlwaysOk).calls = [Call.assets reqApiBare] :=
  onlyApiSlashRoutesToApi.1 assetsAlwaysJs apiAlwaysOk reqApiBare rfl
